import Mathlib

set_option maxRecDepth 100000

/-
Shallow embedding of trizin/clipmate (src/manager.rs, src/main.rs).

Conventions of the embedding:
  * Rust u128 values (timestamps, counters) are modelled as Nat.  The only
    arithmetic on them is `+= 1` on the counters and storing a timestamp;
    a u128 overflow would need 2^128 increments and is not reachable in any
    execution, so the wrap-around is not modelled.
  * The filesystem visible to the program is modelled explicitly:
    the backing history file is a list of characters, and the image files
    in the working directory are an association list from filename to bytes.
  * External collaborators (the OS clipboard, the xclip helper process,
    the wall clock) are modelled as inputs to each sampling step: the text
    read result, the image helper result and the current time are
    parameters of the corresponding functions.
  * serde_json serialization of ClipboardHistory is reproduced character
    by character (field order follows the struct declarations, enum unit
    variants serialize as their names, u128 as decimal, strings with the
    escaping serde_json performs).  Deserialization (serde_json::from_str)
    is external library code and is abstracted where needed.
  * The SHA-256 hex digest (sha2 crate, external) is abstracted as an
    opaque function parameter `sha256hex`; the code only ever uses it as a
    deterministic name generator.
-/

/-- Item type tag: manager.rs lines 10-14. -/
inductive ClipboardItemType where
  | TEXT
  | IMAGE
deriving DecidableEq

/-- One history entry: manager.rs lines 16-21.  `time` is the capture
timestamp in nanoseconds since the epoch; `data` is the clipboard string for
TEXT items and a filename for IMAGE items. -/
structure ClipboardItem where
  time : Nat
  item_type : ClipboardItemType
  data : String
deriving DecidableEq

/-- The in-memory history: manager.rs lines 23-28.  Field order (items,
image_counter, text_counter) matches the Rust struct declaration and hence
the serde_json field order. -/
structure ClipboardHistory where
  items : List ClipboardItem
  image_counter : Nat
  text_counter : Nat
deriving DecidableEq

/-- ClipboardHistory::new, manager.rs lines 31-37. -/
def ClipboardHistory.new : ClipboardHistory :=
  { items := [], image_counter := 0, text_counter := 0 }

/-- ClipboardHistory::add_item, manager.rs lines 39-54.  `now` is the value
SystemTime::now() would have produced. -/
def ClipboardHistory.add_item (h : ClipboardHistory) (now : Nat) (item : String)
    (item_type : ClipboardItemType) : ClipboardHistory :=
  { items := h.items ++ [{ time := now, item_type := item_type, data := item }]
    image_counter :=
      if item_type = ClipboardItemType.IMAGE then h.image_counter + 1 else h.image_counter
    text_counter :=
      if item_type = ClipboardItemType.TEXT then h.text_counter + 1 else h.text_counter }

/-- ClipboardHistory::get_item, manager.rs lines 56-58 (Vec::get). -/
def ClipboardHistory.get_item (h : ClipboardHistory) (index : Nat) : Option ClipboardItem :=
  h.items.get? index

/-- ClipboardHistory::get_counter, manager.rs lines 60-65. -/
def ClipboardHistory.get_counter (h : ClipboardHistory) (t : ClipboardItemType) : Nat :=
  match t with
  | ClipboardItemType.TEXT => h.text_counter
  | ClipboardItemType.IMAGE => h.image_counter

/-- Lowercase hexadecimal digit, as used by serde_json's escape table. -/
def hexDigit (n : Nat) : Char :=
  if n < 10 then Char.ofNat (48 + n) else Char.ofNat (87 + n)

/-- JSON escaping of one character exactly as serde_json emits it: quote and
backslash get two-character escapes, the five control characters with short
escapes get those, every other control character below 0x20 becomes a
lowercase \u00XX escape, and everything else is passed through. -/
def escapeChar (c : Char) : List Char :=
  if c = Char.ofNat 34 then [Char.ofNat 92, Char.ofNat 34]
  else if c = Char.ofNat 92 then [Char.ofNat 92, Char.ofNat 92]
  else if c = Char.ofNat 8 then [Char.ofNat 92, Char.ofNat 98]
  else if c = Char.ofNat 9 then [Char.ofNat 92, Char.ofNat 116]
  else if c = Char.ofNat 10 then [Char.ofNat 92, Char.ofNat 110]
  else if c = Char.ofNat 12 then [Char.ofNat 92, Char.ofNat 102]
  else if c = Char.ofNat 13 then [Char.ofNat 92, Char.ofNat 114]
  else if c.toNat < 32 then
    [Char.ofNat 92, Char.ofNat 117, Char.ofNat 48, Char.ofNat 48,
      hexDigit (c.toNat / 16), hexDigit (c.toNat % 16)]
  else [c]

/-- serde_json string-body escaping, character by character. -/
def escapeString (s : String) : String :=
  String.mk (s.data.map escapeChar).flatten

/-- serde serialization of the enum's unit variants ("TEXT" / "IMAGE"). -/
def itemTypeName : ClipboardItemType → String
  | ClipboardItemType.TEXT => "TEXT"
  | ClipboardItemType.IMAGE => "IMAGE"

/-- serde_json::to_string of one ClipboardItem (field order time, item_type,
data, as declared in the struct). -/
def serializeItem (it : ClipboardItem) : String :=
  "\x7b\"time\":" ++ toString it.time ++ ",\"item_type\":\"" ++ itemTypeName it.item_type
    ++ "\",\"data\":\"" ++ escapeString it.data ++ "\"\x7d"

/-- serde_json::to_string of the whole ClipboardHistory, as produced at
manager.rs line 108. -/
def serializeHistory (h : ClipboardHistory) : String :=
  "\x7b\"items\":[" ++ String.intercalate "," (h.items.map serializeItem)
    ++ "],\"image_counter\":" ++ toString h.image_counter
    ++ ",\"text_counter\":" ++ toString h.text_counter ++ "\x7d"

/-- The manager together with the part of the filesystem the program touches.
`history` and `xclip_available` are the fields of ClipboardManager
(manager.rs lines 68-73); `historyFile` is the contents of the file at
history_file_path; `imageFiles` are the image files in the working
directory (filename, bytes). -/
structure SysState where
  history : ClipboardHistory
  xclip_available : Bool
  historyFile : List Char
  imageFiles : List (String × List Nat)
deriving DecidableEq

/-- Writing `w` to an existing file opened with write(true).create(true) but
WITHOUT truncate: the bytes are written from offset 0 and whatever of the old
contents lies beyond them survives. -/
def overwriteFrom (w old : List Char) : List Char :=
  w ++ old.drop w.length

/-- ClipboardManager::save_history, manager.rs lines 107-116.  The
OpenOptions at lines 109-113 set write(true).create(true) and never
truncate(true), which is why `overwriteFrom` and not plain replacement. -/
def save_history (s : SysState) : SysState :=
  { s with historyFile := overwriteFrom (serializeHistory s.history).data s.historyFile }

/-- ClipboardManager::save_text, manager.rs lines 99-105.  text.len() in the
source is the UTF-8 byte count; it is < 1 exactly when the string is empty,
which is also exactly when the character count used here is < 1. -/
def save_text (now : Nat) (text : String) (s : SysState) : SysState :=
  if text.length < 1 then s
  else save_history { s with history := s.history.add_item now text ClipboardItemType.TEXT }

/-- std::path::Path::exists for the working directory model. -/
def diskHas (files : List (String × List Nat)) (nm : String) : Bool :=
  files.any (fun p => p.1 == nm)

/-- ClipboardManager::save_image, manager.rs lines 154-167.  Note the early
return at lines 155-157: when a file with the target name already exists the
function returns before the File::create, before the add_item and before the
save_history. -/
def save_image (now : Nat) (image_data : List Nat) (image_name : String)
    (s : SysState) : SysState :=
  if diskHas s.imageFiles image_name then s
  else
    save_history
      { s with
        imageFiles := (image_name, image_data) :: s.imageFiles,
        history := s.history.add_item now image_name ClipboardItemType.IMAGE }

/-- ClipboardManager::last_clipboard_image, manager.rs lines 169-176. -/
def last_clipboard_image (h : ClipboardHistory) : String :=
  match h.items.reverse.find? (fun x => x.item_type == ClipboardItemType.IMAGE) with
  | some item => item.data
  | none => ""

/-- ClipboardManager::last_clipboard_text, manager.rs lines 178-185:
iterate in reverse, first TEXT item, empty string if none. -/
def last_clipboard_text (h : ClipboardHistory) : String :=
  match h.items.reverse.find? (fun x => x.item_type == ClipboardItemType.TEXT) with
  | some item => item.data
  | none => ""

/-- ClipboardManager::update_clipboard_content, manager.rs lines 187-199.
`res` is the result of ctx.get_contents(); `none` is the Err case, which
only prints a message. -/
def update_clipboard_content (now : Nat) (res : Option String) (s : SysState) : SysState :=
  match res with
  | some content =>
    if content ≠ last_clipboard_text s.history then save_text now content s else s
  | none => s

/-- Observable outcome of ClipboardManager::set_clipboard_text; the function
takes &self and mutates no manager state. -/
inductive RestoreOutcome where
  | setText (data : String)
  | setImage (path : String)
  | notFound
  | panicUnderflow
deriving DecidableEq

/-- The `item_number - 1` at manager.rs line 124 on a usize.  With the
overflow checks of the default debug profile, subtraction below zero is a
panic; `none` models that panic.  (A release build would instead wrap to
usize::MAX, and a lookup at that index returns None.) -/
def usizeSub1 (n : Nat) : Option Nat :=
  if n = 0 then none else some (n - 1)

/-- What restoring a history item does to the clipboard. -/
def restoreAction (it : ClipboardItem) : RestoreOutcome :=
  match it.item_type with
  | ClipboardItemType.TEXT => RestoreOutcome.setText it.data
  | ClipboardItemType.IMAGE => RestoreOutcome.setImage it.data

/-- ClipboardManager::set_clipboard_text, manager.rs lines 122-152, as the
outcome it produces.  The manager state is untouched (the Rust function
takes &self), so the result is only the observable action. -/
def set_clipboard_text (h : ClipboardHistory) (item_number : Nat) : RestoreOutcome :=
  match usizeSub1 item_number with
  | none => RestoreOutcome.panicUnderflow
  | some i =>
    match h.get_item i with
    | some item => restoreAction item
    | none => RestoreOutcome.notFound

/-- ClipboardManager::new, manager.rs lines 76-97.  Reading and parsing the
file is serde_json (external); `loaded` is the history the construction ended
up with (the parsed file, or ClipboardHistory::new when the file was absent).
Whatever that outcome, xclip_available is initialized to true (line 95). -/
def newManager (loaded : ClipboardHistory) (file : List Char)
    (disk : List (String × List Nat)) : SysState :=
  { history := loaded, xclip_available := true, historyFile := file, imageFiles := disk }

variable (sha256hex : List Nat → String)

/-- format!("\x7b:x\x7d.png", Sha256(bytes)) at manager.rs lines 218-221,
with the hex digest abstracted as `sha256hex`. -/
def hashName (b : List Nat) : String :=
  sha256hex b ++ ".png"

/-- ClipboardManager::update_image_content, manager.rs lines 201-235.
`res` is the result of the xclip helper invocation: `none` when
Command::output() returned Err, `some bytes` for its stdout on success. -/
def update_image_content (now : Nat) (res : Option (List Nat)) (s : SysState) : SysState :=
  if !s.xclip_available then s
  else
    match res with
    | none => { s with xclip_available := false }
    | some image_data =>
      if image_data ≠ [] ∧ 50 < image_data.length then
        let image_name := hashName sha256hex image_data
        if (s.history.items.find? (fun x => x.data == image_name)).isSome then s
        else save_image now image_data image_name s
      else s

/-- The operations a ClipboardManager exposes, each with the external inputs
it consumes.  `restoreCall` covers set_clipboard_text, which takes &self and
leaves the state unchanged. -/
inductive MOp where
  | sampleText (now : Nat) (res : Option String)
  | sampleImage (now : Nat) (res : Option (List Nat))
  | saveTextCall (now : Nat) (text : String)
  | saveImageCall (now : Nat) (bytes : List Nat) (nm : String)
  | restoreCall (n : Nat)

/-- One manager operation acting on the state. -/
def applyOp (op : MOp) (s : SysState) : SysState :=
  match op with
  | MOp.sampleText now res => update_clipboard_content now res s
  | MOp.sampleImage now res => update_image_content sha256hex now res s
  | MOp.saveTextCall now t => save_text now t s
  | MOp.saveImageCall now b nm => save_image now b nm s
  | MOp.restoreCall _ => s

/-- A finite trace of manager operations. -/
def runOps (ops : List MOp) (s : SysState) : SysState :=
  ops.foldl (fun st op => applyOp sha256hex op st) s

/-- A freshly constructed manager over an empty working directory: no history
file present, so ClipboardHistory::new is used. -/
def emptyState : SysState :=
  { history := ClipboardHistory.new, xclip_available := true,
    historyFile := [], imageFiles := [] }

/-- Number of items of one type in the history. -/
def countType (h : ClipboardHistory) (t : ClipboardItemType) : Nat :=
  (h.items.filter (fun i => i.item_type == t)).length

/-- The counter invariant of §3 of the spec, as a decidable check. -/
def countersOk (h : ClipboardHistory) : Bool :=
  (h.text_counter == countType h ClipboardItemType.TEXT)
    && (h.image_counter == countType h ClipboardItemType.IMAGE)

/-- Every TEXT item carries a nonempty data string (spec §3 invariant). -/
def allTextNonempty (h : ClipboardHistory) : Bool :=
  h.items.all (fun i => !(i.item_type == ClipboardItemType.TEXT) || !(i.data == ""))

/-- The dedup probe of manager.rs lines 223-228: some item (of any type) in
the history has this data string. -/
def containsData (h : ClipboardHistory) (nm : String) : Bool :=
  (h.items.find? (fun x => x.data == nm)).isSome

/-- Number of history items whose data equals `nm`. -/
def countData (h : ClipboardHistory) (nm : String) : Nat :=
  (h.items.filter (fun x => x.data == nm)).length

/-- A run of bare ClipboardHistory::add_item calls (timestamp, data, type). -/
def addSeq (l : List (Nat × String × ClipboardItemType)) (h : ClipboardHistory) :
    ClipboardHistory :=
  l.foldl (fun hh x => hh.add_item x.1 x.2.1 x.2.2) h

/-- Interior whitespace used to build a non-canonical but valid JSON
document: serde_json accepts whitespace between tokens. -/
def paddedSpaces : String :=
  String.mk (List.replicate 64 (Char.ofNat 32))

/-- A valid serde_json document for the empty history, padded with interior
whitespace: it parses to ClipboardHistory::new but is longer than the
canonical serialization of small histories. -/
def paddedFile : List Char :=
  ("\x7b\"items\":[]," ++ paddedSpaces ++ "\"image_counter\":0,\"text_counter\":0\x7d").data

/-- Manager freshly loaded from the padded backing file. -/
def stateC1 : SysState :=
  { history := ClipboardHistory.new, xclip_available := true,
    historyFile := paddedFile, imageFiles := [] }

/-- Empty history, but a file named g.png already present on disk. -/
def stateC2 : SysState :=
  { history := ClipboardHistory.new, xclip_available := true,
    historyFile := [], imageFiles := [("g.png", [])] }

/-- Empty history, but a file named h.png already present on disk. -/
def stateC3 : SysState :=
  { history := ClipboardHistory.new, xclip_available := true,
    historyFile := [], imageFiles := [("h.png", [])] }

/-- History holding a single TEXT item "a". -/
def stateC4 : SysState :=
  { history := { items := [{ time := 0, item_type := ClipboardItemType.TEXT, data := "a" }],
                 image_counter := 0, text_counter := 1 },
    xclip_available := true, historyFile := [], imageFiles := [] }

/-- The three-item history [A, B, C] of the 1-based addressing claim. -/
def historyABC : ClipboardHistory :=
  { items := [{ time := 1, item_type := ClipboardItemType.TEXT, data := "A" },
              { time := 2, item_type := ClipboardItemType.TEXT, data := "B" },
              { time := 3, item_type := ClipboardItemType.IMAGE, data := "C" }],
    image_counter := 1, text_counter := 2 }

/-- A manager whose helper latch has already fired. -/
def stateC9 : SysState :=
  { history := ClipboardHistory.new, xclip_available := false,
    historyFile := [], imageFiles := [] }

/-- save_history only rewrites the backing file. -/
@[simp]
theorem save_history_history (s : SysState) : (save_history s).history = s.history := rfl

@[simp]
theorem save_history_avail (s : SysState) :
    (save_history s).xclip_available = s.xclip_available := rfl

@[simp]
theorem save_history_imageFiles (s : SysState) :
    (save_history s).imageFiles = s.imageFiles := rfl

/-- text.len() < 1 holds exactly for the empty string. -/
theorem length_lt_one_iff (t : String) : t.length < 1 ↔ t = "" := by
  cases t with
  | mk d => simp [String.length, Nat.lt_one_iff, List.length_eq_zero, String.ext_iff]

theorem save_text_empty (now : Nat) (s : SysState) : save_text now "" s = s := by
  simp [save_text]

theorem save_text_of_ne (now : Nat) (t : String) (s : SysState) (h : t ≠ "") :
    save_text now t s
      = save_history { s with history := s.history.add_item now t ClipboardItemType.TEXT } := by
  rw [save_text, if_neg]
  rw [length_lt_one_iff]
  exact h

theorem update_text_eq (now : Nat) (c : String) (s : SysState)
    (h : c = last_clipboard_text s.history) :
    update_clipboard_content now (some c) s = s := by
  simp [update_clipboard_content, h]

theorem update_text_ne (now : Nat) (c : String) (s : SysState)
    (h : c ≠ last_clipboard_text s.history) :
    update_clipboard_content now (some c) s = save_text now c s := by
  simp [update_clipboard_content, h]

/-- Appending a TEXT item makes it the most recent TEXT item. -/
theorem last_text_add_text (h : ClipboardHistory) (now : Nat) (t : String) :
    last_clipboard_text (h.add_item now t ClipboardItemType.TEXT) = t := by
  unfold last_clipboard_text ClipboardHistory.add_item
  simp only [List.reverse_append, List.reverse_cons, List.reverse_nil, List.nil_append,
    List.singleton_append]
  rw [List.find?_cons_of_pos _ (by simp)]

theorem save_image_exists (now : Nat) (b : List Nat) (nm : String) (s : SysState)
    (h : diskHas s.imageFiles nm = true) : save_image now b nm s = s := by
  simp [save_image, h]

theorem save_image_fresh (now : Nat) (b : List Nat) (nm : String) (s : SysState)
    (h : diskHas s.imageFiles nm = false) :
    save_image now b nm s
      = save_history
          { s with imageFiles := (nm, b) :: s.imageFiles,
                   history := s.history.add_item now nm ClipboardItemType.IMAGE } := by
  simp [save_image, h]

theorem avail_save_text (now : Nat) (t : String) (s : SysState) :
    (save_text now t s).xclip_available = s.xclip_available := by
  unfold save_text
  split <;> rfl

theorem avail_save_image (now : Nat) (b : List Nat) (nm : String) (s : SysState) :
    (save_image now b nm s).xclip_available = s.xclip_available := by
  unfold save_image
  split <;> rfl

theorem avail_update_clipboard (now : Nat) (res : Option String) (s : SysState) :
    (update_clipboard_content now res s).xclip_available = s.xclip_available := by
  cases res with
  | none => rfl
  | some c =>
    show (if c ≠ last_clipboard_text s.history then save_text now c s else s).xclip_available
      = s.xclip_available
    split
    · exact avail_save_text now c s
    · rfl

theorem update_image_unavailable (g : List Nat → String) (now : Nat)
    (res : Option (List Nat)) (s : SysState) (h : s.xclip_available = false) :
    update_image_content g now res s = s := by
  simp [update_image_content, h]

theorem update_image_err (g : List Nat → String) (now : Nat) (s : SysState)
    (h : s.xclip_available = true) :
    update_image_content g now none s = { s with xclip_available := false } := by
  simp [update_image_content, h]

theorem update_image_small (g : List Nat → String) (now : Nat) (b : List Nat) (s : SysState)
    (h : ¬ (b ≠ [] ∧ 50 < b.length)) :
    update_image_content g now (some b) s = s := by
  cases ha : s.xclip_available with
  | false => exact update_image_unavailable g now _ s ha
  | true => simp [update_image_content, ha, h]

theorem update_image_dup (g : List Nat → String) (now : Nat) (b : List Nat) (s : SysState)
    (hf : (s.history.items.find? (fun x => x.data == hashName g b)).isSome = true) :
    update_image_content g now (some b) s = s := by
  cases ha : s.xclip_available with
  | false => exact update_image_unavailable g now _ s ha
  | true =>
    by_cases hc : b ≠ [] ∧ 50 < b.length
    · simp [update_image_content, ha, hc, hf]
    · simp [update_image_content, ha, hc]

theorem update_image_fresh (g : List Nat → String) (now : Nat) (b : List Nat) (s : SysState)
    (ha : s.xclip_available = true) (hc : b ≠ [] ∧ 50 < b.length)
    (hf : (s.history.items.find? (fun x => x.data == hashName g b)).isSome = false) :
    update_image_content g now (some b) s = save_image now b (hashName g b) s := by
  simp [update_image_content, ha, hc, hf]

theorem avail_update_image_some (g : List Nat → String) (now : Nat) (b : List Nat)
    (s : SysState) :
    (update_image_content g now (some b) s).xclip_available = s.xclip_available := by
  by_cases ha : s.xclip_available = true
  · by_cases hc : b ≠ [] ∧ 50 < b.length
    · by_cases hf : (s.history.items.find? (fun x => x.data == hashName g b)).isSome = true
      · rw [update_image_dup g now b s hf]
      · rw [update_image_fresh g now b s ha hc (by simpa using hf)]
        exact avail_save_image _ _ _ _
    · rw [update_image_small g now b s hc]
  · rw [update_image_unavailable g now _ s (by simpa using ha)]

/-- add_item bumps the matching counter together with the matching count. -/
theorem countersOk_add (h : ClipboardHistory) (now : Nat) (d : String)
    (t : ClipboardItemType) (hh : countersOk h = true) :
    countersOk (h.add_item now d t) = true := by
  cases t <;>
    simp_all [countersOk, ClipboardHistory.add_item, countType, List.filter_append]

/-- add_item keeps the TEXT-items-nonempty invariant as long as a TEXT item
is only ever added with nonempty data. -/
theorem allTextNonempty_add (h : ClipboardHistory) (now : Nat) (d : String)
    (t : ClipboardItemType) (hd : t = ClipboardItemType.TEXT → d ≠ "")
    (hh : allTextNonempty h = true) : allTextNonempty (h.add_item now d t) = true := by
  cases t with
  | TEXT =>
    have hd' : d ≠ "" := hd rfl
    simp_all [allTextNonempty, ClipboardHistory.add_item, List.all_append]
  | IMAGE =>
    simp_all [allTextNonempty, ClipboardHistory.add_item, List.all_append]

/-- The history is append-only, so a data string present before an add is
still present after it. -/
theorem containsData_add (h : ClipboardHistory) (now : Nat) (d : String)
    (t : ClipboardItemType) (nm : String) (hh : containsData h nm = true) :
    containsData (h.add_item now d t) nm = true := by
  unfold containsData ClipboardHistory.add_item at *
  rw [List.find?_append]
  cases hfind : List.find? (fun x => x.data == nm) h.items with
  | none => rw [hfind] at hh; simp at hh
  | some v => simp [Option.or]

/-- Every manager operation either leaves the history alone or performs one
add_item, and a TEXT add always carries nonempty data. -/
theorem applyOp_history_cases (g : List Nat → String) (op : MOp) (s : SysState) :
    (applyOp g op s).history = s.history
      ∨ ∃ now d t, (applyOp g op s).history = s.history.add_item now d t
          ∧ (t = ClipboardItemType.TEXT → d ≠ "") := by
  cases op with
  | sampleText now res =>
    rw [show applyOp g (MOp.sampleText now res) s = update_clipboard_content now res s
      from rfl]
    cases res with
    | none => exact Or.inl rfl
    | some c =>
      by_cases hc : c = last_clipboard_text s.history
      · rw [update_text_eq now c s hc]
        exact Or.inl rfl
      · rw [update_text_ne now c s hc]
        by_cases he : c = ""
        · subst he
          rw [save_text_empty]
          exact Or.inl rfl
        · right
          refine ⟨now, c, ClipboardItemType.TEXT, ?_, fun _ => he⟩
          rw [save_text_of_ne now c s he]
          rfl
  | sampleImage now res =>
    rw [show applyOp g (MOp.sampleImage now res) s = update_image_content g now res s
      from rfl]
    by_cases ha : s.xclip_available = true
    · cases res with
      | none =>
        rw [update_image_err g now s ha]
        exact Or.inl rfl
      | some b =>
        by_cases hc : b ≠ [] ∧ 50 < b.length
        · by_cases hf :
            (s.history.items.find? (fun x => x.data == hashName g b)).isSome = true
          · rw [update_image_dup g now b s hf]
            exact Or.inl rfl
          · rw [update_image_fresh g now b s ha hc (by simpa using hf)]
            by_cases hdk : diskHas s.imageFiles (hashName g b) = true
            · rw [save_image_exists now b _ s hdk]
              exact Or.inl rfl
            · right
              refine ⟨now, hashName g b, ClipboardItemType.IMAGE, ?_,
                fun hy => ClipboardItemType.noConfusion hy⟩
              rw [save_image_fresh now b _ s (by simpa using hdk)]
              rfl
        · rw [update_image_small g now b s hc]
          exact Or.inl rfl
    · rw [update_image_unavailable g now res s (by simpa using ha)]
      exact Or.inl rfl
  | saveTextCall now t =>
    rw [show applyOp g (MOp.saveTextCall now t) s = save_text now t s from rfl]
    by_cases he : t = ""
    · subst he
      rw [save_text_empty]
      exact Or.inl rfl
    · right
      refine ⟨now, t, ClipboardItemType.TEXT, ?_, fun _ => he⟩
      rw [save_text_of_ne now t s he]
      rfl
  | saveImageCall now b nm =>
    rw [show applyOp g (MOp.saveImageCall now b nm) s = save_image now b nm s from rfl]
    by_cases hdk : diskHas s.imageFiles nm = true
    · rw [save_image_exists now b nm s hdk]
      exact Or.inl rfl
    · right
      refine ⟨now, nm, ClipboardItemType.IMAGE, ?_,
        fun hy => ClipboardItemType.noConfusion hy⟩
      rw [save_image_fresh now b nm s (by simpa using hdk)]
      rfl
  | restoreCall n => exact Or.inl rfl

theorem allText_applyOp (g : List Nat → String) (op : MOp) (s : SysState)
    (hh : allTextNonempty s.history = true) :
    allTextNonempty (applyOp g op s).history = true := by
  rcases applyOp_history_cases g op s with he | ⟨now, d, t, he, hdt⟩
  · rw [he]; exact hh
  · rw [he]; exact allTextNonempty_add _ _ _ _ hdt hh

theorem countersOk_applyOp (g : List Nat → String) (op : MOp) (s : SysState)
    (hh : countersOk s.history = true) :
    countersOk (applyOp g op s).history = true := by
  rcases applyOp_history_cases g op s with he | ⟨now, d, t, he, _⟩
  · rw [he]; exact hh
  · rw [he]; exact countersOk_add _ _ _ _ hh

theorem containsData_applyOp (g : List Nat → String) (op : MOp) (s : SysState)
    (nm : String) (hh : containsData s.history nm = true) :
    containsData (applyOp g op s).history nm = true := by
  rcases applyOp_history_cases g op s with he | ⟨now, d, t, he, _⟩
  · rw [he]; exact hh
  · rw [he]; exact containsData_add _ _ _ _ _ hh

theorem runOps_cons (g : List Nat → String) (op : MOp) (ops : List MOp) (s : SysState) :
    runOps g (op :: ops) s = runOps g ops (applyOp g op s) := rfl

theorem allText_runOps (g : List Nat → String) (ops : List MOp) :
    ∀ s : SysState, allTextNonempty s.history = true →
      allTextNonempty (runOps g ops s).history = true := by
  induction ops with
  | nil => intro s hh; exact hh
  | cons op ops ih =>
    intro s hh
    rw [runOps_cons]
    exact ih _ (allText_applyOp g op s hh)

theorem countersOk_runOps (g : List Nat → String) (ops : List MOp) :
    ∀ s : SysState, countersOk s.history = true →
      countersOk (runOps g ops s).history = true := by
  induction ops with
  | nil => intro s hh; exact hh
  | cons op ops ih =>
    intro s hh
    rw [runOps_cons]
    exact ih _ (countersOk_applyOp g op s hh)

theorem containsData_runOps (g : List Nat → String) (ops : List MOp) :
    ∀ (s : SysState) (nm : String), containsData s.history nm = true →
      containsData (runOps g ops s).history nm = true := by
  induction ops with
  | nil => intro s nm hh; exact hh
  | cons op ops ih =>
    intro s nm hh
    rw [runOps_cons]
    exact ih _ nm (containsData_applyOp g op s nm hh)

theorem countersOk_addSeq (l : List (Nat × String × ClipboardItemType)) :
    ∀ h : ClipboardHistory, countersOk h = true → countersOk (addSeq l h) = true := by
  induction l with
  | nil => intro h hh; exact hh
  | cons x l ih =>
    intro h hh
    exact ih _ (countersOk_add h x.1 x.2.1 x.2.2 hh)

/-- An operation that still reports the helper available cannot have started
from a state where the latch had fired. -/
theorem avail_applyOp (g : List Nat → String) (op : MOp) (s : SysState)
    (h : (applyOp g op s).xclip_available = true) : s.xclip_available = true := by
  cases op with
  | sampleText now res =>
    rw [show (applyOp g (MOp.sampleText now res) s) = update_clipboard_content now res s
      from rfl, avail_update_clipboard] at h
    exact h
  | sampleImage now res =>
    cases res with
    | none =>
      by_cases ha : s.xclip_available = true
      · exact ha
      · rw [show (applyOp g (MOp.sampleImage now none) s)
            = update_image_content g now none s from rfl,
          update_image_unavailable g now none s (by simpa using ha)] at h
        exact h
    | some b =>
      rw [show (applyOp g (MOp.sampleImage now (some b)) s)
          = update_image_content g now (some b) s from rfl,
        avail_update_image_some] at h
      exact h
  | saveTextCall now t =>
    rw [show (applyOp g (MOp.saveTextCall now t) s) = save_text now t s from rfl,
      avail_save_text] at h
    exact h
  | saveImageCall now b nm =>
    rw [show (applyOp g (MOp.saveImageCall now b nm) s) = save_image now b nm s from rfl,
      avail_save_image] at h
    exact h
  | restoreCall n => exact h

theorem avail_runOps (g : List Nat → String) (ops : List MOp) :
    ∀ s : SysState, (runOps g ops s).xclip_available = true → s.xclip_available = true := by
  induction ops with
  | nil => intro s h; exact h
  | cons op ops ih =>
    intro s h
    rw [runOps_cons] at h
    exact avail_applyOp g op s (ih _ h)

/-- C1 (corrected): save_history writes the serde_json serialization from the
start of the backing file without truncating, so the resulting file is the
serialization followed by whatever of the prior contents lay beyond it; the
file equals exactly the serialization (and a reload therefore sees exactly
this history) precisely under the proviso that the prior file was no longer
than the new serialization — which holds for every file save_history itself
wrote, since the log only grows, but not for every prior file state. -/
theorem clipmate_C1 (s : SysState) :
    (save_history s).historyFile
        = (serializeHistory s.history).data
            ++ s.historyFile.drop (serializeHistory s.history).data.length
    ∧ (s.historyFile.length ≤ (serializeHistory s.history).data.length →
        (save_history s).historyFile = (serializeHistory s.history).data) := by
  constructor
  · rfl
  · intro hle
    show overwriteFrom (serializeHistory s.history).data s.historyFile = _
    unfold overwriteFrom
    rw [List.drop_eq_nil_of_le hle, List.append_nil]

/-- Witness for C1 at a concrete state: an absent (empty) prior file is
shorter than the serialization, and persisting leaves exactly the
serialization. -/
theorem clipmate_C1_witness :
    emptyState.historyFile.length ≤ (serializeHistory emptyState.history).data.length
    ∧ (save_history emptyState).historyFile = (serializeHistory emptyState.history).data :=
  ⟨Nat.zero_le _, (clipmate_C1 emptyState).2 (Nat.zero_le _)⟩

/-- Counterexample to C1 as stated: load the manager from a valid
whitespace-padded document for the empty history (111 characters), then
save the text "a".  The persist triggered by that save writes the 87-character
serialization over the front of the file, and the final 24 characters of the
padded document survive: the file does not equal the serialization of the
in-memory history (and is no longer valid JSON, so the next load would fail). -/
theorem clipmate_C1_cex :
    ¬ ((save_text 0 "a" stateC1).historyFile
        = (serializeHistory (save_text 0 "a" stateC1).history).data) := by
  decide

/-- C2 (corrected): when a file with the derived name already exists on disk,
save_image skips NOT ONLY the byte write but the whole operation — no history
append and no persist (manager.rs lines 155-157 return before add_item); the
append, the persist and the byte write all happen exactly when no such file
exists. -/
theorem clipmate_C2 :
    (∀ (now : Nat) (b : List Nat) (nm : String) (s : SysState),
        diskHas s.imageFiles nm = true → save_image now b nm s = s)
    ∧ ∀ (now : Nat) (b : List Nat) (nm : String) (s : SysState),
        diskHas s.imageFiles nm = false →
          (save_image now b nm s).history.items
              = s.history.items
                  ++ [{ time := now, item_type := ClipboardItemType.IMAGE, data := nm }]
          ∧ (save_image now b nm s).imageFiles = (nm, b) :: s.imageFiles
          ∧ (save_image now b nm s).historyFile
              = overwriteFrom
                  (serializeHistory (s.history.add_item now nm ClipboardItemType.IMAGE)).data
                  s.historyFile := by
  constructor
  · intro now b nm s h
    exact save_image_exists now b nm s h
  · intro now b nm s h
    rw [save_image_fresh now b nm s h]
    exact ⟨rfl, rfl, rfl⟩

/-- Witness for C2: with g.png already on disk the call is a full no-op; on a
clean directory the append and persist do happen. -/
theorem clipmate_C2_witness :
    (diskHas stateC2.imageFiles "g.png" = true ∧ save_image 3 [9] "g.png" stateC2 = stateC2)
    ∧ (diskHas emptyState.imageFiles "q.png" = false
        ∧ (save_image 4 [1] "q.png" emptyState).history.items
            = emptyState.history.items
                ++ [{ time := 4, item_type := ClipboardItemType.IMAGE, data := "q.png" }]) :=
  ⟨⟨by decide, clipmate_C2.1 3 [9] "g.png" stateC2 (by decide)⟩,
   ⟨by decide, (clipmate_C2.2 4 [1] "q.png" emptyState (by decide)).1⟩⟩

/-- Counterexample to C2 as stated: empty history, but g.png already on disk.
Sampling a 51-byte payload whose derived name is g.png matches no history
item, yet no Image item is appended — the history stays empty instead of
growing by one, because save_image returned at the exists-check. -/
theorem clipmate_C2_cex :
    ¬ ((update_image_content (fun _ => "g") 0 (some (List.replicate 51 7))
          stateC2).history.items.length
        = stateC2.history.items.length + 1) := by
  decide

/-- C3 (corrected): provided the derived filename is matched by no existing
history item (of any type) AND no file with that name already exists on disk,
a first sample_image of b (length > 50, helper available) appends exactly one
Image item with that filename, and any later sample_image of bytes with the
same derived name is a no-op because the item is found in history, wherever it
sits; presence of a data string in the history is preserved by every further
operation, so the dedup also holds with other items added in between. -/
theorem clipmate_C3 :
    (∀ (g : List Nat → String) (now : Nat) (b : List Nat) (s : SysState),
        s.xclip_available = true →
        containsData s.history (hashName g b) = false →
        diskHas s.imageFiles (hashName g b) = false →
        50 < b.length →
          ((update_image_content g now (some b) s).history.items.filter
              (fun x => x.data == hashName g b))
            = [{ time := now, item_type := ClipboardItemType.IMAGE, data := hashName g b }])
    ∧ (∀ (g : List Nat → String) (now : Nat) (b : List Nat) (s : SysState),
        containsData s.history (hashName g b) = true →
          update_image_content g now (some b) s = s)
    ∧ ∀ (g : List Nat → String) (ops : List MOp) (s : SysState) (nm : String),
        containsData s.history nm = true →
          containsData (runOps g ops s).history nm = true := by
  refine ⟨?_, ?_, ?_⟩
  · intro g now b s ha hcd hdk hlen
    have hb : b ≠ [] := by
      intro he
      rw [he] at hlen
      simp at hlen
    have hf : (s.history.items.find? (fun x => x.data == hashName g b)).isSome = false := hcd
    rw [update_image_fresh g now b s ha ⟨hb, hlen⟩ hf]
    rw [save_image_fresh now b (hashName g b) s hdk]
    rw [save_history_history]
    show ((s.history.add_item now (hashName g b) ClipboardItemType.IMAGE).items.filter
      (fun x => x.data == hashName g b)) = _
    unfold ClipboardHistory.add_item
    rw [List.filter_append]
    have hnil : s.history.items.filter (fun x => x.data == hashName g b) = [] := by
      rw [List.filter_eq_nil_iff]
      intro a hmem hpa
      cases hfind : List.find? (fun x => x.data == hashName g b) s.history.items with
      | none => exact List.find?_eq_none.1 hfind a hmem hpa
      | some v =>
        rw [hfind] at hf
        exact Bool.noConfusion hf
    rw [hnil]
    simp
  · intro g now b s hcd
    exact update_image_dup g now b s hcd
  · intro g ops s nm hcd
    exact containsData_runOps g ops s nm hcd

/-- Witness for C3 at concrete inputs: a fresh manager, a 51-byte payload and
a stand-in digest function; the first sample leaves exactly one matching
Image item. -/
theorem clipmate_C3_witness :
    (emptyState.xclip_available = true
      ∧ containsData emptyState.history (hashName (fun _ => "w") (List.replicate 51 0)) = false
      ∧ diskHas emptyState.imageFiles (hashName (fun _ => "w") (List.replicate 51 0)) = false
      ∧ 50 < (List.replicate 51 (0 : Nat)).length)
    ∧ ((update_image_content (fun _ => "w") 5 (some (List.replicate 51 0))
          emptyState).history.items.filter
        (fun x => x.data == hashName (fun _ => "w") (List.replicate 51 0)))
      = [{ time := 5, item_type := ClipboardItemType.IMAGE,
           data := hashName (fun _ => "w") (List.replicate 51 0) }] :=
  ⟨⟨rfl, rfl, rfl, by decide⟩,
   clipmate_C3.1 (fun _ => "w") 5 (List.replicate 51 0) emptyState rfl rfl rfl (by decide)⟩

/-- Counterexample to C3 as stated: empty history but a stale h.png already on
disk (its derived name).  Processing the same 51-byte payload twice appends
nothing at all — zero Image items with that filename result, not exactly
one, because save_image returns at the exists-check before the append. -/
theorem clipmate_C3_cex :
    ¬ (countData
        (update_image_content (fun _ => "h") 1 (some (List.replicate 51 2))
          (update_image_content (fun _ => "h") 0 (some (List.replicate 51 2)) stateC3)).history
        (hashName (fun _ => "h") (List.replicate 51 2)) = 1) := by
  decide

/-- C4 (corrected): with the clipboard fixed at t, two consecutive
sample_text calls append at most one item and the second call changes nothing
at all; the mechanism clause — that after the first call the most recent TEXT
item's data equals t — holds provided t is nonempty (for t = "" the first
call appends nothing and an older nonempty text may remain most recent). -/
theorem clipmate_C4 (s : SysState) (t : String) (now1 now2 : Nat) :
    update_clipboard_content now2 (some t) (update_clipboard_content now1 (some t) s)
        = update_clipboard_content now1 (some t) s
    ∧ (update_clipboard_content now1 (some t) s).history.items.length
        ≤ s.history.items.length + 1
    ∧ (t ≠ "" →
        last_clipboard_text (update_clipboard_content now1 (some t) s).history = t) := by
  by_cases hc : t = last_clipboard_text s.history
  · rw [update_text_eq now1 t s hc]
    exact ⟨update_text_eq now2 t s hc, Nat.le_succ _, fun _ => hc.symm⟩
  · rw [update_text_ne now1 t s hc]
    by_cases he : t = ""
    · subst he
      rw [save_text_empty]
      exact ⟨by rw [update_text_ne now2 "" s hc, save_text_empty],
        Nat.le_succ _, fun hcon => absurd rfl hcon⟩
    · rw [save_text_of_ne now1 t s he]
      have hlast : last_clipboard_text
          (save_history
            { s with history := s.history.add_item now1 t ClipboardItemType.TEXT }).history
          = t := by
        rw [save_history_history]
        exact last_text_add_text s.history now1 t
      refine ⟨update_text_eq now2 t _ hlast.symm, ?_, fun _ => hlast⟩
      rw [save_history_history]
      simp [ClipboardHistory.add_item]

/-- Witness for C4 at t = "a" from a fresh manager: the second call is a
no-op and the most recent TEXT item is "a". -/
theorem clipmate_C4_witness :
    (update_clipboard_content 1 (some "a") (update_clipboard_content 0 (some "a") emptyState)
        = update_clipboard_content 0 (some "a") emptyState)
    ∧ ("a" : String) ≠ ""
    ∧ last_clipboard_text (update_clipboard_content 0 (some "a") emptyState).history = "a" :=
  ⟨(clipmate_C4 emptyState "a" 0 1).1, by decide,
   (clipmate_C4 emptyState "a" 0 1).2.2 (by decide)⟩

/-- Counterexample to C4 as stated: history holds one TEXT item "a" and the
clipboard reads "".  The first call appends nothing (empty text is rejected),
so the most recent TEXT item's data is "a", not the sampled t = "". -/
theorem clipmate_C4_cex :
    ¬ (last_clipboard_text (update_clipboard_content 1 (some "") stateC4).history = "") := by
  decide

/-- C5 (confirmed): sampling an empty-string clipboard value is a complete
no-op from any state, and consequently along every operation sequence from a
freshly constructed empty history every TEXT item carries nonempty data. -/
theorem clipmate_C5 :
    (∀ (s : SysState) (now : Nat), update_clipboard_content now (some "") s = s)
    ∧ ∀ (g : List Nat → String) (ops : List MOp),
        allTextNonempty (runOps g ops emptyState).history = true := by
  constructor
  · intro s now
    by_cases hc : ("" : String) = last_clipboard_text s.history
    · exact update_text_eq now "" s hc
    · rw [update_text_ne now "" s hc]
      exact save_text_empty now s
  · intro g ops
    exact allText_runOps g ops emptyState (by decide)

/-- C6 (confirmed): a successful helper result of at most 50 bytes is treated
as no image present: the whole state — history, files, latch — is unchanged. -/
theorem clipmate_C6 (g : List Nat → String) (s : SysState) (now : Nat) (b : List Nat)
    (hb : b.length ≤ 50) : update_image_content g now (some b) s = s := by
  apply update_image_small
  intro hcon
  omega

/-- Witness for C6: a 50-byte payload on a fresh manager changes nothing. -/
theorem clipmate_C6_witness :
    (List.replicate 50 (3 : Nat)).length ≤ 50
    ∧ update_image_content (fun _ => "w50") 2 (some (List.replicate 50 3)) emptyState
        = emptyState :=
  ⟨by decide, clipmate_C6 (fun _ => "w50") emptyState 2 (List.replicate 50 3) (by decide)⟩

/-- C7 (confirmed): starting from the freshly constructed empty history, any
sequence of add_item calls keeps text_counter equal to the number of TEXT
items and image_counter equal to the number of IMAGE items; one add_item
preserves the correspondence from any state satisfying it, and so does every
manager operation along any trace from a fresh manager. -/
theorem clipmate_C7 :
    (∀ l : List (Nat × String × ClipboardItemType),
        countersOk (addSeq l ClipboardHistory.new) = true)
    ∧ (∀ (h : ClipboardHistory) (now : Nat) (d : String) (t : ClipboardItemType),
        countersOk h = true → countersOk (h.add_item now d t) = true)
    ∧ ∀ (g : List Nat → String) (ops : List MOp),
        countersOk (runOps g ops emptyState).history = true := by
  refine ⟨?_, ?_, ?_⟩
  · intro l
    exact countersOk_addSeq l ClipboardHistory.new (by decide)
  · intro h now d t hh
    exact countersOk_add h now d t hh
  · intro g ops
    exact countersOk_runOps g ops emptyState (by decide)

/-- Witness for C7: the preservation clause applied at a concrete history. -/
theorem clipmate_C7_witness :
    countersOk historyABC = true
    ∧ countersOk (historyABC.add_item 9 "hello" ClipboardItemType.TEXT) = true :=
  ⟨by decide, clipmate_C7.2.1 historyABC 9 "hello" ClipboardItemType.TEXT (by decide)⟩

/-- C8 (confirmed): restore uses 1-based addressing — for item_number >= 1 it
acts on items[item_number - 1], so restore(2) on [A, B, C] operates on B —
and any item_number >= 1 beyond the history length yields the not-found
report, with no state change (set_clipboard_text takes the history immutably)
and normal termination. -/
theorem clipmate_C8 :
    (∀ (h : ClipboardHistory) (n : Nat), 1 ≤ n → h.items.length < n →
        set_clipboard_text h n = RestoreOutcome.notFound)
    ∧ ∀ (h : ClipboardHistory) (n : Nat), 1 ≤ n → ∀ hl : n - 1 < h.items.length,
        set_clipboard_text h n = restoreAction (h.items.get ⟨n - 1, hl⟩) := by
  constructor
  · intro h n h1 hlen
    have hn0 : n ≠ 0 := by omega
    have e1 : usizeSub1 n = some (n - 1) := by simp [usizeSub1, hn0]
    have e2 : h.get_item (n - 1) = none := by
      rw [ClipboardHistory.get_item, List.get?_eq_none]
      omega
    simp [set_clipboard_text, e1, e2]
  · intro h n h1 hl
    have hn0 : n ≠ 0 := by omega
    have e1 : usizeSub1 n = some (n - 1) := by simp [usizeSub1, hn0]
    have e2 : h.get_item (n - 1) = some (h.items.get ⟨n - 1, hl⟩) := by
      rw [ClipboardHistory.get_item, List.get?_eq_get]
    simp [set_clipboard_text, e1, e2]

/-- Witness for C8 on the concrete history [A, B, C]: restore(4) reports
not-found and restore(2) operates on B. -/
theorem clipmate_C8_witness :
    (1 ≤ 4 ∧ historyABC.items.length < 4
      ∧ set_clipboard_text historyABC 4 = RestoreOutcome.notFound)
    ∧ (1 ≤ 2 ∧ set_clipboard_text historyABC 2
        = restoreAction (historyABC.items.get ⟨1, by decide⟩)
      ∧ restoreAction (historyABC.items.get ⟨1, by decide⟩) = RestoreOutcome.setText "B") :=
  ⟨⟨by decide, by decide, clipmate_C8.1 historyABC 4 (by decide) (by decide)⟩,
   ⟨by decide, clipmate_C8.2 historyABC 2 (by decide) (by decide), by decide⟩⟩

/-- C9 (confirmed): the helper latch is one-way — true at construction
whatever was loaded, an update_image_content under a fired latch is a
complete no-op whatever the helper would return now, the latch fires exactly
on a failed invocation, and no trace of operations ever turns it back on. -/
theorem clipmate_C9 :
    (∀ (h : ClipboardHistory) (f : List Char) (d : List (String × List Nat)),
        (newManager h f d).xclip_available = true)
    ∧ (∀ (g : List Nat → String) (now : Nat) (res : Option (List Nat)) (s : SysState),
        s.xclip_available = false → update_image_content g now res s = s)
    ∧ (∀ (g : List Nat → String) (now : Nat) (res : Option (List Nat)) (s : SysState),
        s.xclip_available = true →
          ((update_image_content g now res s).xclip_available = false ↔ res = none))
    ∧ ∀ (g : List Nat → String) (ops : List MOp) (s : SysState),
        (runOps g ops s).xclip_available = true → s.xclip_available = true := by
  refine ⟨?_, ?_, ?_, ?_⟩
  · intro h f d
    rfl
  · intro g now res s ha
    exact update_image_unavailable g now res s ha
  · intro g now res s ha
    cases res with
    | none =>
      rw [update_image_err g now s ha]
      simp
    | some b =>
      rw [avail_update_image_some, ha]
      simp
  · intro g ops s h
    exact avail_runOps g ops s h

/-- Witness for C9: with the latch fired, a call that would have succeeded
(51 bytes) changes nothing; with it intact, a failed invocation fires it. -/
theorem clipmate_C9_witness :
    (stateC9.xclip_available = false
      ∧ update_image_content (fun _ => "w") 7 (some (List.replicate 51 1)) stateC9 = stateC9)
    ∧ (emptyState.xclip_available = true
      ∧ ((update_image_content (fun _ => "w") 8 none emptyState).xclip_available = false
          ↔ (none : Option (List Nat)) = none)) :=
  ⟨⟨rfl, clipmate_C9.2.1 (fun _ => "w") 7 (some (List.replicate 51 1)) stateC9 rfl⟩,
   ⟨rfl, clipmate_C9.2.2.1 (fun _ => "w") 8 none emptyState rfl⟩⟩

/-- C10 (confirmed): restore(0) never reaches the not-found branch — the
1-based to 0-based conversion subtracts 1 from the unsigned item_number,
which underflows at 0 and panics under the overflow checks of the default
debug profile, whatever the history; the not-found guarantee of C8 holds
only for item_number >= 1. -/
theorem clipmate_C10 (h : ClipboardHistory) :
    set_clipboard_text h 0 = RestoreOutcome.panicUnderflow
    ∧ set_clipboard_text h 0 ≠ RestoreOutcome.notFound := by
  refine ⟨rfl, ?_⟩
  intro hcon
  exact RestoreOutcome.noConfusion hcon

/-- Witness for C10 at a concrete history: restore(0) on [A, B, C] panics on
the underflow instead of reporting not-found. -/
theorem clipmate_C10_witness :
    set_clipboard_text historyABC 0 = RestoreOutcome.panicUnderflow
    ∧ set_clipboard_text historyABC 0 ≠ RestoreOutcome.notFound :=
  clipmate_C10 historyABC
